import Mathlib

/-!
Verification of the authentication core of a small blog-style backend
(`src/auth/auth.service.ts`): password hashing, stateless token issuance,
token verification, token rotation, and `Authorization` header parsing.

The service methods are shallowly embedded below.  External collaborators
(the JWT library behind `JwtService`, `bcrypt`, the user store) are not part
of the repository; they are modelled from the specification and marked as
such, or passed in as explicit function parameters, mirroring dependency
injection.
-/

namespace AuthCore

/-- A JavaScript string split on a single-character separator
(`String.prototype.split` with a one-character string argument): the string is
cut at every occurrence of the separator, and empty pieces are kept.  Defined
on `List Char`; `jsSplit` wraps it for `String`. -/
def splitChar (sep : Char) : List Char → List (List Char)
  | [] => [[]]
  | c :: cs =>
    match splitChar sep cs with
    | [] => [[]]
    | p :: ps => if c = sep then [] :: p :: ps else (c :: p) :: ps

/-- The wrapper `jsSplit s sep`, that is `s.split(sep)` for a one-character
separator, as in the source
(`header.split(' ')`, `decode.split(':')`). -/
def jsSplit (s : String) (sep : Char) : List String :=
  (splitChar sep s.data).map String.mk

/-- Failures thrown by the service.  Every failure in the source is a Nest
`UnauthorizedException` (optionally with a message); the JWT library's own
`JsonWebTokenError` / `TokenExpiredError` are kept apart because
`rotateToken` lets them propagate uncaught. -/
inductive AuthFailure
  | unauthorized (msg : Option String)
  | invalidToken
  | expiredToken
deriving DecidableEq, Repr

/-- The message of the `UnauthorizedException` thrown by
`extractTokenFromHeader` and `decodeBasicToken`. -/
def wrongTokenMsg : AuthFailure := .unauthorized (some "wrong token!")

/-- The method `extractTokenFromHeader(header, isBearer)` from `auth.service.ts`:
split the header on spaces, require exactly two parts whose first is the
expected prefix, and return the second part. -/
def extractTokenFromHeader (header : String) (isBearer : Bool) :
    Except AuthFailure String :=
  let splitToken := jsSplit header ' '
  let pre := if isBearer then "Bearer" else "Basic"
  if splitToken.length ≠ 2 ∨ splitToken.head? ≠ some pre then
    .error wrongTokenMsg
  else
    .ok (splitToken.getD 1 "")

/-- The credential pair returned by `decodeBasicToken`. -/
structure Credential where
  email : String
  password : String
deriving DecidableEq, Repr

/-- The method `decodeBasicToken(base64String)` from `auth.service.ts`.  The base64 /
UTF-8 decoding is done by Node's `Buffer`, an external collaborator, so it is
passed in as the function `base64Decode`; the repository's own logic is what
follows: split the decoded string on every colon, require exactly two parts,
and return them as email and password. -/
def decodeBasicToken (base64Decode : String → String) (base64String : String) :
    Except AuthFailure Credential :=
  let decode := base64Decode base64String
  let split := jsSplit decode ':'
  if split.length ≠ 2 then
    .error wrongTokenMsg
  else
    .ok { email := split.getD 0 "", password := split.getD 1 "" }

/-- The JWT payload built by `signToken`: `email`, `sub` (the user id) and
`type` (the string literal applied by the source, either of the two values
written there).  `sub` is an `Option` because JavaScript lets the `id` read
in `signToken` yield `undefined` when the object passed in has no such
member (as happens in `rotateToken`); `jsonwebtoken` then omits the claim. -/
structure JwtPayload where
  email : String
  sub : Option Nat
  type : String
deriving DecidableEq, Repr

/-- Modelled from the spec: the signed token produced by the external JWT
library (`TokenCodec` in the spec) — a tamper-evident artifact carrying the
payload, issuance time `iat`, expiry `exp`, and an integrity tag bound to the
signing secret.  The tag is modelled as the secret itself: it matches a
verification secret exactly when the secrets are equal. -/
structure SignedToken where
  email : String
  sub : Option Nat
  type : String
  iat : Nat
  exp : Nat
  tag : String
deriving DecidableEq, Repr

/-- The payload recovered by a successful verification: the signed claims
without the integrity tag. -/
structure Decoded where
  email : String
  sub : Option Nat
  type : String
  iat : Nat
  exp : Nat
deriving DecidableEq, Repr

/-- Modelled from the spec: `TokenCodec.sign(payload, secret, expiresInSeconds)`
of the external JWT library, at current time `now` — records the payload,
sets `iat` to the signing time and `exp` to `iat + expiresIn`, and binds the
integrity tag to the secret. -/
def jwtSign (payload : JwtPayload) (secret : String) (expiresIn : Nat)
    (now : Nat) : SignedToken :=
  { email := payload.email, sub := payload.sub, type := payload.type,
    iat := now, exp := now + expiresIn, tag := secret }

/-- Modelled from the spec: `TokenCodec.verify(token, secret)` of the external
JWT library, at current time `now` — fails with `InvalidTokenError` if the
integrity tag does not match the secret, with `ExpiredTokenError` once the
current time exceeds the expiry, and otherwise returns the decoded claims. -/
def jwtVerify (token : SignedToken) (secret : String) (now : Nat) :
    Except AuthFailure Decoded :=
  if token.tag ≠ secret then
    .error .invalidToken
  else if token.exp < now then
    .error .expiredToken
  else
    .ok { email := token.email, sub := token.sub, type := token.type,
          iat := token.iat, exp := token.exp }

/-- Modelled from the spec: the shared signing secret imported from
`auth.const.ts` (a configuration file outside the provided sources).  Its
concrete value is opaque configuration; any fixed string models it. -/
def JWT_SECRET : String := "jwt-secret-from-config"

/-- Modelled from the spec: the bcrypt cost factor imported from
`auth.const.ts`; an opaque configuration integer. -/
def HASH_ROUNDS : Nat := 10

/-- Modelled from the spec: `bcrypt.hash(plaintext, rounds)` — a salted
one-way hash.  The random salt is passed explicitly; the model records cost,
salt and input behind a scheme marker so that `bcryptCompare` can recompute,
and so that the output is never equal to the plaintext. -/
def bcryptHash (plaintext : String) (rounds : Nat) (salt : String) : String :=
  "$2b$" ++ toString rounds ++ "$" ++ salt ++ "$" ++ plaintext

/-- Modelled from the spec: `bcrypt.compare(plaintext, hashed)` — recomputes
against the salt and cost embedded in `hashed` and compares; returns `false`
on mismatch, never throws. -/
def bcryptCompare (plaintext hashed : String) : Bool :=
  match jsSplit hashed '$' with
  | ["", "2b", rounds, salt, embedded] =>
    hashed = bcryptHash embedded (rounds.toNat!) salt && embedded = plaintext
  | _ => false

/-- The `Pick<UsersModel, 'email' | 'id'>` argument taken by `signToken` and
`loginUser`.  `id` is an `Option` because `rotateToken` passes an object with
no `id` member, making the read yield `undefined`. -/
structure UserEmailId where
  email : String
  id : Option Nat
deriving DecidableEq, Repr

/-- The method `signToken(user, isRefreshToken)` from `auth.service.ts`: build the
payload from the user's email and id, with type by the flag, and sign it
with the configured secret, expiring in 3600 seconds for a refresh token and
300 for an access token. -/
def signToken (user : UserEmailId) (isRefreshToken : Bool) (now : Nat) :
    SignedToken :=
  let payload : JwtPayload :=
    { email := user.email,
      sub := user.id,
      type := if isRefreshToken then "refresh" else "access" }
  jwtSign payload JWT_SECRET (if isRefreshToken then 3600 else 300) now

/-- The access/refresh token pair returned by `loginUser`. -/
structure TokenPair where
  accessToken : SignedToken
  refreshToken : SignedToken
deriving DecidableEq, Repr

/-- The method `loginUser(user)` from `auth.service.ts`: sign an access token and a
refresh token for the same user. -/
def loginUser (user : UserEmailId) (now : Nat) : TokenPair :=
  { accessToken := signToken user false now,
    refreshToken := signToken user true now }

/-- The method `verifyToken(token)` from `auth.service.ts`: verify with the configured
secret; any failure of the library is caught and re-thrown as a single
`UnauthorizedException` whose message does not distinguish the cause. -/
def verifyToken (token : SignedToken) (now : Nat) : Except AuthFailure Decoded :=
  match jwtVerify token JWT_SECRET now with
  | .ok decoded => .ok decoded
  | .error _ =>
    .error (.unauthorized (some "토큰이 만료되었거나, 잘못된 토큰입니다."))

/-- The message of the `UnauthorizedException` thrown by `rotateToken` when
the presented token is not a refresh token. -/
def wrongKindMsg : AuthFailure :=
  .unauthorized (some "토큰 재발급은 Refresh 토큰으로만 가능!")

/-- The method `rotateToken(token, isRefreshToken)` from `auth.service.ts`: verify the
token (library failures propagate uncaught), require the decoded `type` to be
the refresh literal, then re-sign via `signToken`.  The object passed to
`signToken` is the spread of the decoded payload: it has `email`, `sub`,
`type`, `iat` and `exp` members but no `id`, so the `id` read inside
`signToken` yields `undefined` (`none`). -/
def rotateToken (token : SignedToken) (isRefreshToken : Bool) (now : Nat) :
    Except AuthFailure SignedToken := do
  let decoded ← jwtVerify token JWT_SECRET now
  if decoded.type ≠ "refresh" then
    .error wrongKindMsg
  else
    .ok (signToken { email := decoded.email, id := none } isRefreshToken now)

/-- The full user record held by the external store (`UsersModel`): the
stored `password` is the hash kept by the store. -/
structure UsersModel where
  id : Nat
  email : String
  nickname : String
  password : String
deriving DecidableEq, Repr

/-- The `RegisterUserDto` registration input. -/
structure RegisterUserDto where
  email : String
  nickname : String
  password : String
deriving DecidableEq, Repr

/-- The `Pick<UsersModel, 'email' | 'password'>` login credential argument. -/
structure EmailPassword where
  email : String
  password : String
deriving DecidableEq, Repr

/-- The method `authenticateWithEmailAndPassword(user)` from `auth.service.ts`.  The
store lookup (`usersService.getUserByEmail`) and the password comparison
(`bcrypt.compare`) are external collaborators passed in as functions: look up
the user by email, fail with a bare `UnauthorizedException` if absent, fail
with a messaged one if the comparison against the stored hash rejects, and
return the found record otherwise. -/
def authenticateWithEmailAndPassword
    (getUserByEmail : String → Option UsersModel)
    (compare : String → String → Bool)
    (user : EmailPassword) : Except AuthFailure UsersModel :=
  match getUserByEmail user.email with
  | none => .error (.unauthorized none)
  | some existingUser =>
    if compare user.password existingUser.password then
      .ok existingUser
    else
      .error (.unauthorized (some "비밀번호가 틀렸습니다."))

/-- The method `loginWithEmail(user)` from `auth.service.ts`: authenticate, then issue
the token pair for the found user. -/
def loginWithEmail
    (getUserByEmail : String → Option UsersModel)
    (compare : String → String → Bool)
    (user : EmailPassword) (now : Nat) : Except AuthFailure TokenPair :=
  (authenticateWithEmailAndPassword getUserByEmail compare user).map
    fun existingUser =>
      loginUser { email := existingUser.email, id := some existingUser.id } now

/-- The method `registerWithEmail(user)` from `auth.service.ts`: hash the password with
the configured rounds (the random salt is explicit), hand the dto with the
hash substituted to the store's `createUser`, and issue the token pair for
the created user. -/
def registerWithEmail
    (createUser : RegisterUserDto → UsersModel)
    (user : RegisterUserDto) (salt : String) (now : Nat) : TokenPair :=
  let hash := bcryptHash user.password HASH_ROUNDS salt
  let newUser := createUser { user with password := hash }
  loginUser { email := newUser.email, id := some newUser.id } now

/-- The registration dto handed to the store's `createUser` by
`registerWithEmail`: the input with the password replaced by its hash. -/
def hashedRegistration (user : RegisterUserDto) (salt : String) : RegisterUserDto :=
  { user with password := bcryptHash user.password HASH_ROUNDS salt }


/-! ### Lemmas about the JavaScript split -/

theorem splitChar_ne_nil (sep : Char) (l : List Char) : splitChar sep l ≠ [] := by
  cases l with
  | nil => simp [splitChar]
  | cons c cs =>
    simp only [splitChar]
    cases splitChar sep cs with
    | nil => simp
    | cons p ps =>
      by_cases hc : c = sep <;> simp [hc]

theorem splitChar_not_mem (sep : Char) (l : List Char) (h : sep ∉ l) :
    splitChar sep l = [l] := by
  induction l with
  | nil => rfl
  | cons c cs ih =>
    simp only [List.mem_cons, not_or] at h
    simp only [splitChar, ih h.2]
    rw [if_neg (fun hc => h.1 hc.symm)]

theorem splitChar_append (sep : Char) (a b : List Char) (ha : sep ∉ a) :
    splitChar sep (a ++ sep :: b) = a :: splitChar sep b := by
  induction a with
  | nil =>
    simp only [List.nil_append, splitChar]
    cases hb : splitChar sep b with
    | nil => exact absurd hb (splitChar_ne_nil sep b)
    | cons p ps => simp
  | cons c a2 ih =>
    simp only [List.mem_cons, not_or] at ha
    simp only [List.cons_append, splitChar, List.append_eq, ih ha.2]
    rw [if_neg (fun hc => ha.1 hc.symm)]

theorem splitChar_length (sep : Char) (l : List Char) :
    (splitChar sep l).length = l.count sep + 1 := by
  induction l with
  | nil => rfl
  | cons c cs ih =>
    simp only [splitChar]
    cases h : splitChar sep cs with
    | nil => exact absurd h (splitChar_ne_nil sep cs)
    | cons p ps =>
      rw [h] at ih
      simp only [List.length_cons] at ih
      show (if c = sep then [] :: p :: ps else (c :: p) :: ps).length =
        List.count sep (c :: cs) + 1
      by_cases hc : c = sep
      · rw [if_pos hc, List.count_cons, if_pos (by simp [hc])]
        simp only [List.length_cons]
        omega
      · rw [if_neg hc, List.count_cons, if_neg (by simp [hc])]
        simp only [List.length_cons]
        omega

theorem jsSplit_length (s : String) (sep : Char) :
    (jsSplit s sep).length = s.data.count sep + 1 := by
  simp [jsSplit, splitChar_length]

theorem string_data_append (s t : String) : (s ++ t).data = s.data ++ t.data := by
  cases s
  cases t
  rfl

theorem jsSplit_append_sep (e w : String) (sep : Char)
    (he : sep ∉ e.data) (hw : sep ∉ w.data) :
    jsSplit (e ++ String.mk [sep] ++ w) sep = [e, w] := by
  have hdata : (e ++ String.mk [sep] ++ w).data = e.data ++ sep :: w.data := by
    rw [string_data_append, string_data_append, List.append_assoc]
    rfl
  simp only [jsSplit, hdata, splitChar_append sep e.data w.data he,
    splitChar_not_mem sep w.data hw, List.map]

/-! ### Claim theorems -/

/-- C7: for every header string and expected scheme, `extractTokenFromHeader`
splits the header on a single space and returns the second part exactly when
the split yields exactly two parts whose first equals the expected scheme
name ("Bearer" when `isBearer`, "Basic" otherwise); in every other case it
fails with the malformed-header error. -/
theorem extractTokenFromHeader_spec (header : String) (isBearer : Bool) :
    (∀ t, extractTokenFromHeader header isBearer = .ok t ↔
      jsSplit header ' ' = [if isBearer then "Bearer" else "Basic", t]) ∧
    (extractTokenFromHeader header isBearer = .error wrongTokenMsg ↔
      ¬ ∃ t, jsSplit header ' ' = [if isBearer then "Bearer" else "Basic", t]) := by
  have hunfold : extractTokenFromHeader header isBearer =
      if (jsSplit header ' ').length ≠ 2 ∨
          (jsSplit header ' ').head? ≠
            some (if isBearer then "Bearer" else "Basic") then
        .error wrongTokenMsg
      else
        .ok ((jsSplit header ' ').getD 1 "") := rfl
  rw [hunfold]
  rcases jsSplit header ' ' with _ | ⟨a, _ | ⟨b, _ | ⟨c, rest⟩⟩⟩
  · simp
  · simp
  · by_cases ha : a = (if isBearer then "Bearer" else "Basic") <;>
      simp_all [List.getD]
  · simp

/-- C2 counterexample: a decoded credential whose password part contains a
colon.  The decoded string does contain a colon, yet `decodeBasicToken`
rejects it with the malformed-header error instead of returning
`email = "a@b.com"`, `password = "pa:ss"` as the claim states. -/
theorem decodeBasicToken_colon_password_rejected :
    ':' ∈ ("a@b.com:pa:ss" : String).data ∧
    decodeBasicToken (fun _ => "a@b.com:pa:ss") "YUBiLmNvbTpwYTpzcw==" =
      .error wrongTokenMsg :=
  ⟨by decide, rfl⟩

/-- C2 (amended): the method `decodeBasicToken` splits the decoded string on every
colon and requires exactly two resulting parts: it fails with the
malformed-header error exactly when the decoded string does not contain
exactly one colon, and succeeds with the substrings around the unique colon
otherwise (so neither the email nor the password may contain a colon). -/
theorem decodeBasicToken_spec (base64Decode : String → String) (p : String) :
    (decodeBasicToken base64Decode p = .error wrongTokenMsg ↔
      (base64Decode p).data.count ':' ≠ 1) ∧
    (∀ e w, base64Decode p = e ++ ":" ++ w → ':' ∉ e.data → ':' ∉ w.data →
      decodeBasicToken base64Decode p = .ok ⟨e, w⟩) := by
  constructor
  · unfold decodeBasicToken
    by_cases h : (jsSplit (base64Decode p) ':').length = 2 <;>
      simp_all [jsSplit_length]
  · intro e w hd he hw
    have hsplit : jsSplit (base64Decode p) ':' = [e, w] := by
      rw [hd]
      exact jsSplit_append_sep e w ':' he hw
    unfold decodeBasicToken
    simp [hsplit, List.getD]

/-- C10: the method `decodeBasicToken` does not reject empty credential components: for
every base64 payload decoding to a string with exactly one colon — written
as `e ++ ":" ++ w` with neither part containing a colon, which covers an
empty email or an empty password — decoding succeeds and returns the
(possibly empty) substrings before and after the colon. -/
theorem decodeBasicToken_empty_components (base64Decode : String → String)
    (p e w : String) (hd : base64Decode p = e ++ ":" ++ w)
    (he : ':' ∉ e.data) (hw : ':' ∉ w.data) :
    decodeBasicToken base64Decode p = .ok ⟨e, w⟩ := by
  have hsplit : jsSplit (base64Decode p) ':' = [e, w] := by
    rw [hd]
    exact jsSplit_append_sep e w ':' he hw
  unfold decodeBasicToken
  simp [hsplit, List.getD]

/-- C10 witness: the two empty-component credentials at concrete inputs —
an empty email (decoded ":pw") and an empty password (decoded "a@b.com:"). -/
theorem decodeBasicToken_empty_components_witness :
    decodeBasicToken (fun _ => ":pw") "OnB3" = .ok ⟨"", "pw"⟩ ∧
    decodeBasicToken (fun _ => "a@b.com:") "YUBiLmNvbTo=" = .ok ⟨"a@b.com", ""⟩ :=
  ⟨decodeBasicToken_empty_components (fun _ => ":pw") "OnB3" "" "pw"
      rfl (by decide) (by decide),
    decodeBasicToken_empty_components (fun _ => "a@b.com:") "YUBiLmNvbTo="
      "a@b.com" "" rfl (by decide) (by decide)⟩

/-- C4: verifying a token immediately after signing it with the same secret
succeeds and returns the original payload (round-trip of `jwtVerify` over
`jwtSign`, before expiry), for every payload, secret and ttl; and at the
service level `verifyToken` over `signToken`. -/
theorem verify_sign_roundtrip (payload : JwtPayload) (secret : String)
    (ttl now : Nat) (user : UserEmailId) (isRefreshToken : Bool) :
    jwtVerify (jwtSign payload secret ttl now) secret now =
      .ok ⟨payload.email, payload.sub, payload.type, now, now + ttl⟩ ∧
    verifyToken (signToken user isRefreshToken now) now =
      .ok ⟨user.email, user.id, if isRefreshToken then "refresh" else "access",
        now, now + if isRefreshToken then 3600 else 300⟩ := by
  constructor
  · simp [jwtVerify, jwtSign]
  · simp [verifyToken, signToken, jwtVerify, jwtSign]

/-- C5: the codec `jwtVerify` fails with the invalid-token error when the integrity
tag does not match the secret, and with the expired-token error when the
current time exceeds issuance time plus ttl; in both cases `verifyToken`
surfaces the failure as one authentication failure whose message does not
distinguish the two. -/
theorem verifyToken_failure_modes (secret : String) (now : Nat) :
    (∀ token : SignedToken, token.tag ≠ secret →
      jwtVerify token secret now = .error .invalidToken) ∧
    (∀ payload ttl iat, iat + ttl < now →
      jwtVerify (jwtSign payload JWT_SECRET ttl iat) JWT_SECRET now =
        .error .expiredToken) ∧
    (∀ token e, jwtVerify token JWT_SECRET now = .error e →
      verifyToken token now =
        .error (.unauthorized (some "토큰이 만료되었거나, 잘못된 토큰입니다."))) := by
  refine ⟨fun token htag => ?_, fun payload ttl iat hexp => ?_,
    fun token e herr => ?_⟩
  · simp [jwtVerify, htag]
  · simp [jwtVerify, jwtSign, hexp]
  · simp [verifyToken, herr]

/-- C8: every token signed with the access kind carries an expiry of 300
seconds from its issuance time, and every token signed with the refresh kind
an expiry of 3600 seconds. -/
theorem signToken_expiry (user : UserEmailId) (now : Nat) :
    (signToken user false now).iat = now ∧
    (signToken user false now).exp = now + 300 ∧
    (signToken user true now).iat = now ∧
    (signToken user true now).exp = now + 3600 := by
  simp [signToken, jwtSign]

/-- C3: for every token that verifies but whose decoded kind is not the
refresh kind (in particular the access kind), and for both values of
`isRefreshToken`, `rotateToken` fails with the wrong-kind error; and every
token `rotateToken` accepts decoded to the refresh kind. -/
theorem rotateToken_requires_refresh (token : SignedToken) (now : Nat)
    (isRefreshToken : Bool) :
    (∀ d, jwtVerify token JWT_SECRET now = .ok d → d.type = "access" →
      rotateToken token isRefreshToken now = .error wrongKindMsg) ∧
    (∀ t2, rotateToken token isRefreshToken now = .ok t2 →
      ∃ d, jwtVerify token JWT_SECRET now = .ok d ∧ d.type = "refresh") := by
  constructor
  · intro d hd htype
    simp [rotateToken, hd, htype, Bind.bind, Except.bind]
  · intro t2 h2
    cases hd : jwtVerify token JWT_SECRET now with
    | error e => simp [rotateToken, hd, Bind.bind, Except.bind] at h2
    | ok d =>
      by_cases htype : d.type = "refresh"
      · exact ⟨d, rfl, htype⟩
      · simp [rotateToken, hd, htype, Bind.bind, Except.bind] at h2

/-- C1 (code bug): rotating a valid refresh token issued for subject 1 with
email "a@b.com" yields an access token with the same email, but the object
spread into `signToken` has no `id` member (the decoded payload carries the
subject under `sub`), so the reissued token's subject is dropped (`none`)
instead of the input token's subject `some 1`. -/
theorem rotateToken_drops_subject :
    (signToken ⟨"a@b.com", some 1⟩ true 0).sub = some 1 ∧
    rotateToken (signToken ⟨"a@b.com", some 1⟩ true 0) false 60 =
      .ok { email := "a@b.com", sub := none, type := "access", iat := 60,
            exp := 60 + 300, tag := JWT_SECRET } :=
  ⟨rfl, rfl⟩

/-- C6: `authenticateWithEmailAndPassword` fails with an unauthorized error
when the external lookup finds no user with the given email, fails with an
unauthorized error when the password comparison against the stored hash
rejects, and returns the found user record when both checks pass — for every
lookup function, comparison function and credential. -/
theorem authenticate_spec (getUserByEmail : String → Option UsersModel)
    (compare : String → String → Bool) (user : EmailPassword) :
    (getUserByEmail user.email = none →
      authenticateWithEmailAndPassword getUserByEmail compare user =
        .error (.unauthorized none)) ∧
    (∀ u, getUserByEmail user.email = some u →
      compare user.password u.password = false →
      authenticateWithEmailAndPassword getUserByEmail compare user =
        .error (.unauthorized (some "비밀번호가 틀렸습니다."))) ∧
    (∀ u, getUserByEmail user.email = some u →
      compare user.password u.password = true →
      authenticateWithEmailAndPassword getUserByEmail compare user = .ok u) := by
  refine ⟨fun hnone => ?_, fun u hu hcmp => ?_, fun u hu hcmp => ?_⟩ <;>
    simp [authenticateWithEmailAndPassword, *]

/-- C9: the method `registerWithEmail` hands the store a dto whose password is the hash
of the input password — never the plaintext, from which the hash always
differs — and returns the token pair issued for the created user; when the
store keeps the registered email, both tokens verify successfully and decode
to that email, with the access/refresh kinds and expiries. -/
theorem registerWithEmail_spec (createUser : RegisterUserDto → UsersModel)
    (user : RegisterUserDto) (salt : String) (now : Nat) :
    (hashedRegistration user salt).password ≠ user.password ∧
    (hashedRegistration user salt).email = user.email ∧
    (hashedRegistration user salt).nickname = user.nickname ∧
    registerWithEmail createUser user salt now =
      loginUser ⟨(createUser (hashedRegistration user salt)).email,
        some (createUser (hashedRegistration user salt)).id⟩ now ∧
    ((createUser (hashedRegistration user salt)).email = user.email →
      verifyToken (registerWithEmail createUser user salt now).accessToken now =
          .ok ⟨user.email, some (createUser (hashedRegistration user salt)).id,
            "access", now, now + 300⟩ ∧
        verifyToken (registerWithEmail createUser user salt now).refreshToken now =
          .ok ⟨user.email, some (createUser (hashedRegistration user salt)).id,
            "refresh", now, now + 3600⟩) := by
  refine ⟨?_, rfl, rfl, rfl, fun hecho => ?_⟩
  · intro h
    have hlen := congrArg String.length h
    have h1 : ("$2b$" : String).length = 4 := rfl
    have h2 : ("$" : String).length = 1 := rfl
    have h3 : (toString HASH_ROUNDS).length = 2 := rfl
    simp only [hashedRegistration, bcryptHash, String.length_append,
      h1, h2, h3] at hlen
    omega
  · simp only [hashedRegistration] at hecho
    constructor <;>
      simp [registerWithEmail, hashedRegistration, loginUser, verifyToken,
        signToken, jwtVerify, jwtSign, hecho]

end AuthCore
